import Mathlib

/-!
Verification of the Feed Acquisition & Change-Detection Engine
(src/src/services/rss.service.ts) against its specification.

The embedding is shallow: every definition below is translated from the
TypeScript source of `RSSService`, with JavaScript strings modelled as
Lean `String`, JavaScript `Date` values as `Int` milliseconds since the
epoch, absent/`undefined` optional fields as `Option`, and the
side-effecting collaborators (cache store, circuit breaker, rate
limiter, HTTP fetch, feed parser) as an explicit environment plus an
explicit effect trace.
-/

namespace RssSkull

/-! ## JavaScript string primitives -/

/-- JS truthiness of an optional string field: `undefined`, `null` and
the empty string are falsy. -/
def truthy : Option String → Bool
  | none => false
  | some s => s ≠ ""

/-- Scanning core of `String.prototype.includes`. -/
def includesChars (pat : List Char) : List Char → Bool
  | [] => pat.isEmpty
  | c :: rest => pat.isPrefixOf (c :: rest) || includesChars pat rest

/-- Models `s.includes(pat)` on JS strings. -/
def includesStr (s pat : String) : Bool := includesChars pat.data s.data

/-- Models `s.startsWith(pat)`. -/
def startsWithStr (s pat : String) : Bool := pat.data.isPrefixOf s.data

/-- Models `s.trim()` (whitespace set approximated by `Char.isWhitespace`). -/
def jsTrim (s : String) : String :=
  ⟨((s.data.dropWhile Char.isWhitespace).reverse.dropWhile Char.isWhitespace).reverse⟩

/-- Models `s.toLowerCase()` (ASCII case folding, which covers every
string the service compares). -/
def jsToLower (s : String) : String := ⟨s.data.map Char.toLower⟩

/-- `[a-zA-Z0-9]` of the Reddit id regexes. -/
def isAlnumChar (c : Char) : Bool := c.isAlpha || c.isDigit

/-- `\w`, i.e. `[A-Za-z0-9_]`. -/
def isWordChar (c : Char) : Bool := c.isAlpha || c.isDigit || c = '_'

/-! ## Identity Assigner: `generateItemId` (rss.service.ts lines 696-741) -/

/-- The raw parsed entry fields that `generateItemId` reads.  `none`
models an absent (`undefined`) field. -/
structure RawItem where
  title : Option String := none
  link : Option String := none
  guid : Option String := none
  pubDate : Option String := none
  deriving DecidableEq

/-- Consume a literal at the head of the character list. -/
def dropLit (lit : List Char) (l : List Char) : Option (List Char) :=
  if lit.isPrefixOf l then some (l.drop lit.length) else none

/-- Match `\/comments\/([a-zA-Z0-9]+)` anchored at the head of `l`,
returning the capture. -/
def matchCommentsAt (l : List Char) : Option String :=
  match dropLit ("/comments/").data l with
  | none => none
  | some rest =>
    let run := rest.takeWhile isAlnumChar
    if run.isEmpty then none else some ⟨run⟩

/-- Match `lit` then `\w+` then `\/comments\/([a-zA-Z0-9]+)` anchored at
the head of `l` (the `\/r\/`, `\/user\/`, `\/u\/` Reddit patterns;
since `\w` excludes `/`, the greedy `\w+` run is forced). -/
def matchSegCommentsAt (lit : String) (l : List Char) : Option String :=
  match dropLit lit.data l with
  | none => none
  | some rest =>
    let run := rest.takeWhile isWordChar
    if run.isEmpty then none else matchCommentsAt (rest.dropWhile isWordChar)

/-- Leftmost match of an anchored matcher, as JS `String.prototype.match`
scans every start position. -/
def scanFor (m : List Char → Option String) : List Char → Option String
  | [] => none
  | c :: rest =>
    match m (c :: rest) with
    | some r => some r
    | none => scanFor m rest

/-- The four Reddit link patterns tried in order by `generateItemId`. -/
def redditIdFromLink (link : String) : Option String :=
  List.findSome? (fun m => scanFor m link.data)
    [matchCommentsAt,
     matchSegCommentsAt ("/r/"),
     matchSegCommentsAt ("/user/"),
     matchSegCommentsAt ("/u/")]

/-- Match `([a-zA-Z0-9]+)$` on a guid: the maximal trailing alphanumeric
run, if nonempty. -/
def trailingAlnum (s : String) : Option String :=
  let run := (s.data.reverse.takeWhile isAlnumChar).reverse
  if run.isEmpty then none else some ⟨run⟩

/-- JS `ToInt32` normalization used by the bitwise operators in
`hashString`. -/
def toInt32 (n : Int) : Int := (n + 2 ^ 31) % 2 ^ 32 - 2 ^ 31

/-- One step of `hashString`: `hash = ((hash << 5) - hash) + char`
followed by `hash = hash & hash` (truncation to a signed 32-bit int). -/
def hashStep (h : Int) (c : Nat) : Int := toInt32 (toInt32 (h * 32) - h + c)

/-- Base-36 digit, as produced by `Number.prototype.toString(36)`. -/
def base36Digit (n : Nat) : Char :=
  if n < 10 then Char.ofNat (48 + n) else Char.ofNat (87 + n)

/-- Fuel-driven base-36 conversion; 32 units of fuel are more than enough
for any 32-bit magnitude, so the fuel never runs out on hash values. -/
def natToBase36Go : Nat → Nat → List Char → List Char
  | 0, n, acc => base36Digit (n % 36) :: acc
  | fuel + 1, n, acc =>
    if n < 36 then base36Digit n :: acc
    else natToBase36Go fuel (n / 36) (base36Digit (n % 36) :: acc)

/-- Models `Math.abs(hash).toString(36)`. -/
def natToBase36 (n : Nat) : String := ⟨natToBase36Go 32 n []⟩

/-- Models `hashString` (rss.service.ts lines 746-754): the JS 32-bit
string hash, rendered in base 36 after `Math.abs`. -/
def hashString (s : String) : String :=
  natToBase36 (s.data.foldl (fun h c => hashStep h c.toNat) 0).natAbs

/-- One character of `.replace(/[^a-zA-Z0-9-]/g, '-')`. -/
def slugChar (c : Char) : Char := if isAlnumChar c || c = '-' then c else '-'

/-- Models `str.replace(/[^a-zA-Z0-9-]/g, '-').toLowerCase()`. -/
def slugify (s : String) : String := jsToLower ⟨s.data.map slugChar⟩

/-- Models `generateItemId` (rss.service.ts lines 696-741).  `now` is the
value of `new Date().toISOString()` at the moment of the call: the
source consults the clock in the final fallback, so the invocation time
is an explicit argument of the embedding. -/
def generateItemId (item : RawItem) (now : String) : String :=
  if truthy item.link && includesStr (item.link.getD ("")) ("reddit.com") then
    let link := item.link.getD ("")
    match redditIdFromLink link with
    | some cap => "reddit_" ++ cap
    | none =>
      if truthy item.guid then
        let guid := item.guid.getD ("")
        match trailingAlnum guid with
        | some cap => "reddit_guid_" ++ cap
        | none => "reddit_guid_" ++ guid
      else
        "reddit_link_" ++ hashString link
  else if truthy item.guid then item.guid.getD ("")
  else if truthy item.link then item.link.getD ("")
  else
    let title := if truthy item.title then item.title.getD ("") else "untitled"
    let pubDate := if truthy item.pubDate then item.pubDate.getD ("") else now
    slugify (title ++ "-" ++ pubDate)

/-! ## Data model: processed feed items and feeds -/

/-- Models the `RSSItem` interface.  `pubDate` is a JS `Date` value,
i.e. milliseconds since the epoch. -/
structure RSSItem where
  id : String
  title : String := ""
  link : String := ""
  description : Option String := none
  pubDate : Option Int := none
  author : Option String := none
  categories : List String := []
  guid : Option String := none
  deriving DecidableEq

/-- Models the `RSSFeed` interface (`feedType` rendered as its name). -/
structure RSSFeed where
  title : String := ""
  description : String := ""
  link : String := ""
  items : List RSSItem := []
  feedType : Option String := none
  detectedFeatures : List String := []
  deriving DecidableEq

/-- Models the `ParseResult` interface. -/
structure ParseResult where
  success : Bool
  feed : Option RSSFeed := none
  error : Option String := none
  deriving DecidableEq

/-! ## Diff Engine: `getNewItems` (rss.service.ts lines 287-423)

`getNewItemsFromFeed` is the body of `getNewItems` after the successful
fetch (lines 294-422), as a function of the fetched feed's item list.
`startup` models `BOT_STARTUP_TIME` (the process-start reference time)
and `now` models `new Date()` / `Date.now()` at the moment of the call,
both as millisecond timestamps. -/
def getNewItemsFromFeed (url : String) (startup now : Int) (items : List RSSItem)
    (lastItemId : Option String) (forceProcessAll : Bool) : List RSSItem × Nat :=
  let totalItemsCount := items.length
  if truthy lastItemId = false then
    if forceProcessAll then
      -- only items published between bot startup and now
      (items.filter (fun item => match item.pubDate with
        | none => false
        | some d => decide (startup ≤ d) && decide (d ≤ now)), totalItemsCount)
    else
      -- first time processing this feed: items from bot startup onwards
      (items.filter (fun item => match item.pubDate with
        | none => false
        | some d => decide (startup ≤ d)), totalItemsCount)
  else
    let lastId := lastItemId.getD ("")
    match items.findIdx? (fun item => item.id == lastId) with
    | none =>
      if includesStr url ("reddit.com") then
        let oneHourAgo := now - 60 * 60 * 1000
        let recentItems := items.filter (fun item => match item.pubDate with
          | none => false
          | some d => decide (oneHourAgo < d))
        if 0 < recentItems.length then (recentItems, totalItemsCount)
        else (items.take (min 3 items.length), totalItemsCount)
      else
        let potentiallyNewItems := items.filter (fun _ => true)
        (potentiallyNewItems.take (min 5 potentiallyNewItems.length), totalItemsCount)
    | some lastItemIndex =>
      let newItems := items.take lastItemIndex
      if lastItemIndex = 0 ∧ 0 < items.length then
        match items.head? with
        | none => (newItems, totalItemsCount)
        | some lastKnownItem =>
          let potentiallyNewItems := items.filter (fun item =>
            match item.pubDate, lastKnownItem.pubDate with
            | some d, some t => decide (t < d)
            | _, _ => false)
          if 0 < potentiallyNewItems.length then (potentiallyNewItems, totalItemsCount)
          else (newItems, totalItemsCount)
      else (newItems, totalItemsCount)

/-- The diff result shape of the spec (newItems, newestId, totalCount). -/
structure DiffResult where
  newItems : List RSSItem
  newestId : Option String
  totalCount : Nat
  deriving DecidableEq

/-- Modelled from the spec: `parserService.checkFeed` (parser.service.ts,
which is not under src/) wraps the diff and, per the spec, returns in
all cases the identity of the first (newest) entry in the sequence as
the checkpoint value for the caller to persist, together with the full
observed entry count.  Its caller `processFeedCheck` persists this value
as `checkResult.lastItemId`. -/
def checkFeedDiff (url : String) (startup now : Int) (items : List RSSItem)
    (lastItemId : Option String) (forceProcessAll : Bool) : DiffResult :=
  let r := getNewItemsFromFeed url startup now items lastItemId forceProcessAll
  { newItems := r.1, newestId := items.head?.map (fun i => i.id), totalCount := r.2 }

/-! ## Resilience Fetcher: `fetchFeed` / `fetchFeedFromUrl`
(rss.service.ts lines 52-282)

The collaborators are modelled as an environment of pure functions
indexed by the attempt number of the current call (the external cache
and circuit state may change between attempts), and the side effects on
them are recorded in an explicit trace. -/

/-- A cache store entry (`cacheService.getEntry`). -/
structure CacheEntry where
  feed : RSSFeed
  etag : Option String := none
  lastModified : Option String := none
  deriving DecidableEq

/-- An HTTP response as observed by the service. -/
structure HttpResponse where
  status : Nat
  statusText : String := ""
  body : String := ""
  etag : Option String := none
  lastModified : Option String := none
  contentType : String := ""
  deriving DecidableEq

/-- Outcome of one `fetch` call: a response, or a thrown transport error
(timeout, connection failure). -/
inductive AttemptOutcome where
  | response (r : HttpResponse)
  | netError (msg : String)

/-- The environment of external collaborators.  `cache url n` is the
cache entry visible at attempt `n` of the current call (`n = 0` for the
lookup at the top of `fetchFeedFromUrl`); `canExecute domain n` is the
circuit-breaker gate at attempt `n`; `http url n` is the outcome of the
HTTP GET of attempt `n`; `parseFeed body` abstracts the
`FeedTypeDetector` dispatch plus the JSON/XML parser and `processFeed`
(`.error` models a thrown parse error). -/
structure Env where
  cache : String → Nat → Option CacheEntry
  canExecute : String → Nat → Bool
  http : String → Nat → AttemptOutcome
  parseFeed : String → Except String RSSFeed

/-- Observable side effects on the collaborators, in order. -/
inductive Effect where
  | cbCheck (domain : String)
  | rateWait (url : String)
  | httpGet (url : String) (attempt : Nat)
  | cbFailure (domain : String)
  | cbSuccess (domain : String)
  | cacheWrite (url : String)
  | sleep (ms : Nat)
  deriving DecidableEq

/-- Retry-loop constants (rss.service.ts lines 41-43). -/
def maxRetries : Nat := 3

def baseDelay : Nat := 1000

def maxDelay : Nat := 30000

/-- The exponential backoff before the attempt after attempt `n`
(rss.service.ts line 259). -/
def backoffDelay (attempt : Nat) : Nat := min (baseDelay * 2 ^ (attempt - 1)) maxDelay

/-- Error message thrown when the body is an HTML document
(rss.service.ts line 190). -/
def htmlErrorMsg : String :=
  "Received HTML page instead of XML feed. Possible redirect or error page."

/-- Error message thrown when the circuit is open (line 104). -/
def circuitOpenMsg (domain : String) : String := s!"Circuit breaker is open for {domain}"

/-- Error message thrown on an unsuccessful HTTP status (line 151). -/
def httpStatusMsg (status : Nat) (statusText : String) : String :=
  s!"HTTP {status}: {statusText}"

/-- Models `isNonRetryableError` (rss.service.ts lines 779-795). -/
def isNonRetryableError (msg : String) : Bool :=
  ["not found", "unauthorized", "forbidden", "invalid url", "invalid feed",
   "parse error"].any (fun pat => includesStr (jsToLower msg) pat)

/-- Models `isRateLimitError` (rss.service.ts lines 800-805). -/
def isRateLimitError (msg : String) : Bool :=
  includesStr (jsToLower msg) ("status code 429") ||
  includesStr (jsToLower msg) ("too many requests") ||
  includesStr (jsToLower msg) ("rate limit")

/-- Splits at the first occurrence of `sep`, returning the text before
and after it. -/
def splitOnFirst (sep : List Char) : List Char → Option (List Char × List Char)
  | [] => none
  | c :: rest =>
    if sep.isPrefixOf (c :: rest) then some ([], (c :: rest).drop sep.length)
    else (splitOnFirst sep rest).map (fun p => (c :: p.1, p.2))

/-- A parsed URL: scheme, lowercased host, path, query (query keeps its
leading `?` when nonempty). -/
structure UrlParts where
  scheme : String
  host : String
  path : String
  query : String
  deriving DecidableEq

/-- Simplified model of `new URL(s)`: `none` models the constructor
throwing.  Userinfo, ports in the host and JS URL canonicalization are
not modelled; the hostname is lowercased as `URL` does. -/
def parseUrl (s : String) : Option UrlParts :=
  match splitOnFirst ("://").data s.data with
  | none => none
  | some (schemeChars, restChars) =>
    if schemeChars.isEmpty then none
    else
      let hostChars := restChars.takeWhile (fun c => c ≠ '/' && c ≠ '?' && c ≠ '#')
      if hostChars.isEmpty then none
      else
        let afterHost := restChars.drop hostChars.length
        let pathChars := afterHost.takeWhile (fun c => c ≠ '?')
        some { scheme := ⟨schemeChars⟩,
               host := ⟨(hostChars.takeWhile (fun c => c ≠ ':')).map Char.toLower⟩,
               path := ⟨pathChars⟩,
               query := ⟨afterHost.drop pathChars.length⟩ }

/-- Reassemble a URL (`url.toString()`). -/
def UrlParts.render (u : UrlParts) : String := u.scheme ++ "://" ++ u.host ++ u.path ++ u.query

/-- Models `extractDomain` (rss.service.ts lines 828-835):
`new URL(url).hostname.toLowerCase()`, or `"unknown"` when the URL does
not parse. -/
def extractDomain (url : String) : String :=
  match parseUrl url with
  | some u => u.host
  | none => "unknown"

/-- Models `isProblematicUrl` (rss.service.ts lines 840-847). -/
def isProblematicUrl (url : String) : Bool :=
  ["reddit.com.br", "reddit.com.br/r/"].any (fun pat => includesStr url pat)

/-- Models the Reddit progressive delay table and the default rate-limit
backoff of `getRateLimitDelay` (rss.service.ts lines 810-823). -/
def getRateLimitDelay (url : String) (attempt : Nat) : Nat :=
  let domain := extractDomain url
  if includesStr domain ("reddit.com") then
    let redditDelays : List Nat := [5000, 15000, 30000]
    (redditDelays.get? (min (attempt - 1) (redditDelays.length - 1))).getD 30000
  else
    min (5000 * 2 ^ (attempt - 1)) 60000

/-- Models the HTML-document check on the response body
(rss.service.ts lines 187-188). -/
def looksLikeHtml (body : String) : Bool :=
  startsWithStr (jsTrim body) ("<!DOCTYPE html") || startsWithStr (jsTrim body) ("<html")

/-- Models `url.searchParams.set('alt', 'rss')` by appending the
parameter (replacement of an existing `alt` key is not modelled). -/
def setAltRss (query : String) : String :=
  if query = "" then "?alt=rss" else query ++ "&alt=rss"

/-- Models `getAlternativeUrls` (rss.service.ts lines 852-902): the
www/no-www toggle, the Blogger feed-path guesses, and the WordPress
feed path, in source order. -/
def getAlternativeUrls (originalUrl : String) : List String :=
  match parseUrl originalUrl with
  | none => []
  | some u =>
    let hostname := u.host
    let wwwAlts :=
      if !startsWithStr hostname ("www.") then [UrlParts.render { u with host := "www." ++ hostname }]
      else [UrlParts.render { u with host := hostname.drop 4 }]
    let bloggerAlts :=
      if includesStr hostname ("blogspot.com") || includesStr hostname ("blogger.com") then
        (if !includesStr originalUrl ("/feeds/posts/default") then
          [UrlParts.render { u with path := "/feeds/posts/default" }]
        else []) ++
        [UrlParts.render { u with path := "/feeds/posts/default", query := setAltRss u.query }]
      else []
    let wpAlts :=
      if includesStr hostname ("wordpress.com") || includesStr hostname ("wp.com") then
        [UrlParts.render { u with path := "/feed/" }]
      else []
    wwwAlts ++ bloggerAlts ++ wpAlts

/-- Continuation of one attempt after the 304 check: status validation
with its circuit-breaker failure record, success record, HTML check,
parse and cache write (rss.service.ts lines 141-234).  The
content-type inspection (lines 157-169) only logs and is omitted. -/
def attemptTail (env : Env) (url domain : String) (r : HttpResponse)
    (effs : List Effect) : Except String RSSFeed × List Effect :=
  if 200 ≤ r.status ∧ r.status ≤ 299 then
    let effs := effs ++ [.cbSuccess domain]
    if looksLikeHtml r.body then (.error htmlErrorMsg, effs)
    else
      match env.parseFeed r.body with
      | .error msg => (.error msg, effs)
      | .ok feed => (.ok feed, effs ++ [.cacheWrite url])
  else
    (.error (httpStatusMsg r.status r.statusText), effs ++ [.cbFailure domain])

/-- The body of one iteration of the retry loop (the `try` block,
rss.service.ts lines 98-234): circuit gate, rate limit, HTTP GET,
304 handling, then `attemptTail`.  A `.error` result models a thrown
exception reaching the `catch`. -/
def tryAttempt (env : Env) (url domain : String) (n : Nat) :
    Except String RSSFeed × List Effect :=
  if env.canExecute domain n then
    let effs : List Effect := [.cbCheck domain, .rateWait url, .httpGet url n]
    match env.http url n with
    | .netError msg => (.error msg, effs)
    | .response r =>
      if r.status = 304 then
        match env.cache url n with
        | some entry => (.ok entry.feed, effs)
        | none => attemptTail env url domain r effs
      else attemptTail env url domain r effs
  else
    (.error (circuitOpenMsg domain), [.cbCheck domain])

/-- The retry loop (rss.service.ts lines 97-265) with the `catch`
classification: rate-limit errors wait on the progressive delay table,
non-retryable errors record a circuit-breaker failure and break, other
errors wait on the exponential backoff.  `fuel` counts the remaining
iterations (`maxRetries` at the start), `n` is the 1-based attempt
number; the `.error` of the result is the final `lastError` message. -/
def runAttempts (env : Env) (url domain : String) :
    Nat → Nat → Except String RSSFeed × List Effect
  | 0, _ => (.error ("Unknown error occurred"), [])
  | fuel + 1, n =>
    match tryAttempt env url domain n with
    | (.ok feed, effs) => (.ok feed, effs)
    | (.error msg, effs) =>
      if isRateLimitError msg then
        if n < maxRetries then
          let next := runAttempts env url domain fuel (n + 1)
          (next.1, effs ++ [.sleep (getRateLimitDelay url n)] ++ next.2)
        else (.error msg, effs)
      else if isNonRetryableError msg then
        (.error msg, effs ++ [.cbFailure domain])
      else if n < maxRetries then
        let next := runAttempts env url domain fuel (n + 1)
        (next.1, effs ++ [.sleep (backoffDelay n)] ++ next.2)
      else (.error msg, effs)

/-- Models `fetchFeedFromUrl` (rss.service.ts lines 75-282): cache
lookup, problematic-URL check, the retry loop, and the post-loop
circuit-breaker failure record for retryable exhaustion.  Every thrown
exception is caught inside the loop, so the function is total and
always returns a structured `ParseResult`. -/
def fetchFeedFromUrl (env : Env) (url : String) : ParseResult × List Effect :=
  match env.cache url 0 with
  | some entry => ({ success := true, feed := some entry.feed }, [])
  | none =>
    if isProblematicUrl url then
      ({ success := false,
         error := some ("URL is known to be problematic and has been skipped") }, [])
    else
      let domain := extractDomain url
      match runAttempts env url domain maxRetries 1 with
      | (.ok feed, effs) => ({ success := true, feed := some feed }, effs)
      | (.error msg, effs) =>
        ({ success := false, error := some msg },
         effs ++ if isNonRetryableError msg then [] else [.cbFailure domain])

/-- The candidate loop of `fetchFeed` (rss.service.ts lines 57-69):
stop at the first success; when every candidate fails, re-fetch the
original URL and return that result. -/
def fetchFeedLoop (env : Env) (origUrl : String) :
    List String → List Effect → ParseResult × List Effect
  | [], acc =>
    let final := fetchFeedFromUrl env origUrl
    (final.1, acc ++ final.2)
  | u :: rest, acc =>
    let r := fetchFeedFromUrl env u
    if r.1.success then (r.1, acc ++ r.2)
    else fetchFeedLoop env origUrl rest (acc ++ r.2)

/-- Models `fetchFeed` (rss.service.ts lines 52-70): the original URL
followed by its alternatives. -/
def fetchFeed (env : Env) (url : String) : ParseResult × List Effect :=
  fetchFeedLoop env url (url :: getAlternativeUrls url) []

/-- Models `getNewItems` (rss.service.ts lines 287-423): fetch, then
diff; a failed fetch yields no items and a zero count. -/
def getNewItems (env : Env) (url : String) (startup now : Int)
    (lastItemId : Option String) (forceProcessAll : Bool) : List RSSItem × Nat :=
  let r := (fetchFeed env url).1
  match r.success, r.feed with
  | true, some feed => getNewItemsFromFeed url startup now feed.items lastItemId forceProcessAll
  | _, _ => ([], 0)

/-! ## Trace observations and concrete inputs used by the theorems -/

/-- Number of HTTP GET attempts recorded in a trace. -/
def countHttpGets (t : List Effect) : Nat :=
  t.countP (fun e => match e with | .httpGet _ _ => true | _ => false)

/-- Number of circuit-breaker failure records in a trace. -/
def countFailures (t : List Effect) : Nat :=
  t.countP (fun e => match e with | .cbFailure _ => true | _ => false)

/-- The backoff sleeps of a trace, in order. -/
def sleepsOf (t : List Effect) : List Nat :=
  t.filterMap (fun e => match e with | .sleep ms => some ms | _ => none)

/-- A raw entry with a title but no guid, no link and no publish
timestamp. -/
def exTitleOnly : RawItem := { title := some ("hello") }

/-- A raw entry identified by its guid. -/
def exGuidItem : RawItem := { guid := some ("abc123"), title := some ("hello") }

/-- Two distinct invocation instants. -/
def isoT1 : String := "2026-01-01T00:00:00.000Z"

/-- See `isoT1`. -/
def isoT2 : String := "2026-01-01T00:00:01.000Z"

/-- The three-item feed of the testable-properties section:
`[A(id=a), B(id=b), C(id=c)]` in feed order. -/
def exA : RSSItem := { id := "a" }

/-- See `exA`. -/
def exB : RSSItem := { id := "b" }

/-- See `exA`. -/
def exC : RSSItem := { id := "c" }

/-- See `exA`. -/
def exSpecList : List RSSItem := [exA, exB, exC]

/-- A feed item published at millisecond 1000000. -/
def recentItem (s : String) : RSSItem := { id := s, pubDate := some 1000000 }

/-- Six items all published within the last hour of `now = 1000500`. -/
def sixRecentItems : List RSSItem :=
  [recentItem ("1"), recentItem ("2"), recentItem ("3"),
   recentItem ("4"), recentItem ("5"), recentItem ("6")]

/-- A Reddit feed URL. -/
def redditUrl : String := "https://www.reddit.com/r/test/.rss"

/-- A plain (non-Reddit, non-problematic) feed URL. -/
def exampleUrl : String := "https://example.com/feed.xml"

/-- Environment in which every attempt yields HTTP 200 with an HTML
body: cache empty, circuit closed. -/
def envHtml : Env :=
  { cache := fun _ _ => none
    canExecute := fun _ _ => true
    http := fun _ _ => .response
      { status := 200, statusText := "OK", body := "<html><body>oops</body></html>" }
    parseFeed := fun _ => .error ("unused") }

/-- Environment in which every attempt yields HTTP 500: cache empty,
circuit closed. -/
def env500 : Env :=
  { cache := fun _ _ => none
    canExecute := fun _ _ => true
    http := fun _ _ => .response
      { status := 500, statusText := "Internal Server Error", body := "" }
    parseFeed := fun _ => .error ("unused") }

/-- Environment in which every attempt throws a transport error. -/
def envFail : Env :=
  { cache := fun _ _ => none
    canExecute := fun _ _ => true
    http := fun _ _ => .netError ("Persistent error")
    parseFeed := fun _ => .error ("unused") }

/-- Environment in which every attempt yields HTTP 304 while no cache
entry exists. -/
def env304 : Env :=
  { cache := fun _ _ => none
    canExecute := fun _ _ => true
    http := fun _ _ => .response { status := 304, statusText := "Not Modified", body := "" }
    parseFeed := fun _ => .error ("unused") }

/-! ## Helper lemmas -/

lemma filter_trivial {α : Type} (l : List α) : l.filter (fun _ => true) = l := by
  induction l <;> simp_all [List.filter]

lemma getNewItemsFromFeed_total (url : String) (startup now : Int) (items : List RSSItem)
    (lastItemId : Option String) (forceProcessAll : Bool) :
    (getNewItemsFromFeed url startup now items lastItemId forceProcessAll).2 = items.length := by
  unfold getNewItemsFromFeed
  dsimp only
  repeat' split <;> try rfl

lemma tryAttempt_statusError (env : Env) (url domain : String) (n : Nat) (r : HttpResponse)
    (hc : env.canExecute domain n = true)
    (hh : env.http url n = .response r)
    (hs : ¬(200 ≤ r.status ∧ r.status ≤ 299))
    (h304 : r.status ≠ 304) :
    tryAttempt env url domain n =
      (.error (httpStatusMsg r.status r.statusText),
       [.cbCheck domain, .rateWait url, .httpGet url n, .cbFailure domain]) := by
  simp only [tryAttempt, hc, if_true, hh]
  simp [attemptTail, h304, hs]

lemma runAttempts_statusFail (env : Env) (url domain : String) (resp : Nat → HttpResponse)
    (hc : ∀ n, env.canExecute domain n = true)
    (hh : ∀ n, env.http url n = .response (resp n))
    (hs : ∀ n, ¬(200 ≤ (resp n).status ∧ (resp n).status ≤ 299))
    (h304 : ∀ n, (resp n).status ≠ 304)
    (hrl : ∀ n, isRateLimitError (httpStatusMsg (resp n).status (resp n).statusText) = false)
    (hnr : ∀ n, isNonRetryableError (httpStatusMsg (resp n).status (resp n).statusText) = false) :
    runAttempts env url domain 3 1 =
      (.error (httpStatusMsg (resp 3).status (resp 3).statusText),
       [.cbCheck domain, .rateWait url, .httpGet url 1, .cbFailure domain,
        .sleep (backoffDelay 1),
        .cbCheck domain, .rateWait url, .httpGet url 2, .cbFailure domain,
        .sleep (backoffDelay 2),
        .cbCheck domain, .rateWait url, .httpGet url 3, .cbFailure domain]) := by
  have t1 := tryAttempt_statusError env url domain 1 (resp 1) (hc 1) (hh 1) (hs 1) (h304 1)
  have t2 := tryAttempt_statusError env url domain 2 (resp 2) (hc 2) (hh 2) (hs 2) (h304 2)
  have t3 := tryAttempt_statusError env url domain 3 (resp 3) (hc 3) (hh 3) (hs 3) (h304 3)
  simp only [runAttempts, t1, t2, t3, hrl, hnr, maxRetries]
  norm_num

lemma isRateLimitError_html : isRateLimitError htmlErrorMsg = false := by decide

lemma isNonRetryableError_html : isNonRetryableError htmlErrorMsg = false := by decide

lemma tryAttempt_html (env : Env) (url domain : String) (n : Nat) (r : HttpResponse)
    (hc : env.canExecute domain n = true)
    (hh : env.http url n = .response r)
    (hok : 200 ≤ r.status ∧ r.status ≤ 299)
    (hhtml : looksLikeHtml r.body = true) :
    tryAttempt env url domain n =
      (.error htmlErrorMsg,
       [.cbCheck domain, .rateWait url, .httpGet url n, .cbSuccess domain]) := by
  have h304 : r.status ≠ 304 := by omega
  simp only [tryAttempt, hc, if_true, hh]
  simp [attemptTail, h304, hok, hhtml]

lemma runAttempts_html (env : Env) (url domain : String) (resp : Nat → HttpResponse)
    (hc : ∀ n, env.canExecute domain n = true)
    (hh : ∀ n, env.http url n = .response (resp n))
    (hok : ∀ n, 200 ≤ (resp n).status ∧ (resp n).status ≤ 299)
    (hhtml : ∀ n, looksLikeHtml (resp n).body = true) :
    runAttempts env url domain 3 1 =
      (.error htmlErrorMsg,
       [.cbCheck domain, .rateWait url, .httpGet url 1, .cbSuccess domain,
        .sleep (backoffDelay 1),
        .cbCheck domain, .rateWait url, .httpGet url 2, .cbSuccess domain,
        .sleep (backoffDelay 2),
        .cbCheck domain, .rateWait url, .httpGet url 3, .cbSuccess domain]) := by
  have t1 := tryAttempt_html env url domain 1 (resp 1) (hc 1) (hh 1) (hok 1) (hhtml 1)
  have t2 := tryAttempt_html env url domain 2 (resp 2) (hc 2) (hh 2) (hok 2) (hhtml 2)
  have t3 := tryAttempt_html env url domain 3 (resp 3) (hc 3) (hh 3) (hok 3) (hhtml 3)
  simp only [runAttempts, t1, t2, t3, isRateLimitError_html, isNonRetryableError_html, maxRetries]
  norm_num

lemma fetchFeedFromUrl_html (env : Env) (url : String) (resp : Nat → HttpResponse)
    (hcache : env.cache url 0 = none)
    (hprob : isProblematicUrl url = false)
    (hc : ∀ n, env.canExecute (extractDomain url) n = true)
    (hh : ∀ n, env.http url n = .response (resp n))
    (hok : ∀ n, 200 ≤ (resp n).status ∧ (resp n).status ≤ 299)
    (hhtml : ∀ n, looksLikeHtml (resp n).body = true) :
    fetchFeedFromUrl env url =
      ({ success := false, error := some htmlErrorMsg },
       [.cbCheck (extractDomain url), .rateWait url, .httpGet url 1,
        .cbSuccess (extractDomain url),
        .sleep (backoffDelay 1),
        .cbCheck (extractDomain url), .rateWait url, .httpGet url 2,
        .cbSuccess (extractDomain url),
        .sleep (backoffDelay 2),
        .cbCheck (extractDomain url), .rateWait url, .httpGet url 3,
        .cbSuccess (extractDomain url),
        .cbFailure (extractDomain url)]) := by
  have hr := runAttempts_html env url (extractDomain url) resp hc hh hok hhtml
  simp only [fetchFeedFromUrl, hcache, hprob, maxRetries, hr, isNonRetryableError_html]
  simp

lemma fetchFeedFromUrl_statusFail (env : Env) (url : String) (resp : Nat → HttpResponse)
    (hcache : env.cache url 0 = none)
    (hprob : isProblematicUrl url = false)
    (hc : ∀ n, env.canExecute (extractDomain url) n = true)
    (hh : ∀ n, env.http url n = .response (resp n))
    (hs : ∀ n, ¬(200 ≤ (resp n).status ∧ (resp n).status ≤ 299))
    (h304 : ∀ n, (resp n).status ≠ 304)
    (hrl : ∀ n, isRateLimitError (httpStatusMsg (resp n).status (resp n).statusText) = false)
    (hnr : ∀ n, isNonRetryableError (httpStatusMsg (resp n).status (resp n).statusText) = false) :
    fetchFeedFromUrl env url =
      ({ success := false, error := some (httpStatusMsg (resp 3).status (resp 3).statusText) },
       [.cbCheck (extractDomain url), .rateWait url, .httpGet url 1,
        .cbFailure (extractDomain url),
        .sleep (backoffDelay 1),
        .cbCheck (extractDomain url), .rateWait url, .httpGet url 2,
        .cbFailure (extractDomain url),
        .sleep (backoffDelay 2),
        .cbCheck (extractDomain url), .rateWait url, .httpGet url 3,
        .cbFailure (extractDomain url),
        .cbFailure (extractDomain url)]) := by
  have hr := runAttempts_statusFail env url (extractDomain url) resp hc hh hs h304 hrl hnr
  simp only [fetchFeedFromUrl, hcache, hprob, maxRetries, hr, hnr 3]
  simp

lemma fetchFeedFromUrl_error_isSome (env : Env) (url : String)
    (h : (fetchFeedFromUrl env url).1.success = false) :
    ((fetchFeedFromUrl env url).1.error).isSome = true := by
  unfold fetchFeedFromUrl at h ⊢
  match hcc : env.cache url 0 with
  | some entry => simp [hcc] at h
  | none =>
    simp only [hcc] at h ⊢
    by_cases hp : isProblematicUrl url
    · simp [hp]
    · simp only [hp, if_false, Bool.false_eq_true] at h ⊢
      match hr : runAttempts env url (extractDomain url) maxRetries 1 with
      | (.ok feed, effs) => simp [hr] at h ⊢
      | (.error msg, effs) => simp [hr]

lemma fetchFeedLoop_allFail (env : Env) (origUrl : String) (l : List String) (acc : List Effect)
    (hall : ∀ u ∈ l, (fetchFeedFromUrl env u).1.success = false) :
    (fetchFeedLoop env origUrl l acc).1 = (fetchFeedFromUrl env origUrl).1 := by
  induction l generalizing acc with
  | nil => rfl
  | cons u rest ih =>
    have hu := hall u (List.mem_cons_self u rest)
    simp only [fetchFeedLoop, hu, Bool.false_eq_true, if_false]
    exact ih _ (fun v hv => hall v (List.mem_cons_of_mem u hv))

/-! ## Claim C1 — identity determinism -/

/-- Claim C1, counterexample: `generateItemId` is NOT independent of the
invocation time for every entry.  For an entry with a title but no guid,
no link and no publish timestamp, the final fallback embeds
`new Date().toISOString()`, so two invocations at different instants
return different identifiers for identical entry fields. -/
theorem generateItemId_time_dependent_cex :
    generateItemId exTitleOnly isoT1 ≠ generateItemId exTitleOnly isoT2 := by decide

/-- Claim C1 (amended): `generateItemId` is a pure deterministic
function of the entry fields whenever the entry has a truthy guid, link
or raw publish-timestamp field; only when all three are absent does the
identifier depend on the invocation time. -/
theorem generateItemId_deterministic_of_content (item : RawItem) (t1 t2 : String)
    (h : (truthy item.guid || truthy item.link || truthy item.pubDate) = true) :
    generateItemId item t1 = generateItemId item t2 := by
  unfold generateItemId
  cases hg : truthy item.guid <;> cases hk : truthy item.link <;>
    cases hp : truthy item.pubDate <;> simp_all

/-- Witness for the amended Claim C1 at an entry identified by its
guid. -/
theorem generateItemId_deterministic_witness :
    generateItemId exGuidItem isoT1 = generateItemId exGuidItem isoT2 :=
  generateItemId_deterministic_of_content exGuidItem isoT1 isoT2 (by decide)

/-! ## Claim C2 — newestId and totalCount in every diff case -/

/-- Claim C2: in every case of the diff operation — checkpoint found,
checkpoint not found, and no-checkpoint first observation, even when
the returned new-item list is empty — the result carries the identity
of the first (newest) entry of the fetched sequence as the checkpoint
value (`newestId`) and the full observed entry count (`totalCount`).
The `totalCount` component comes from `getNewItems` (every branch
returns `items.length`); the `newestId` component lives in the
spec-modelled `checkFeedDiff` wrapper. -/
theorem checkFeedDiff_newestId_totalCount (url : String) (startup now : Int)
    (items : List RSSItem) (lastItemId : Option String) (forceProcessAll : Bool)
    (first : RSSItem) (hfirst : items.head? = some first) :
    (checkFeedDiff url startup now items lastItemId forceProcessAll).newestId
      = some first.id ∧
    (checkFeedDiff url startup now items lastItemId forceProcessAll).totalCount
      = items.length := by
  constructor
  · simp [checkFeedDiff, hfirst]
  · simp [checkFeedDiff, getNewItemsFromFeed_total]

/-- Witness for Claim C2, at a case whose returned new-item list is
empty: the checkpoint is found at position 0 and no entry has a newer
timestamp, yet `newestId` is still the first identity and `totalCount`
the full count. -/
theorem checkFeedDiff_newestId_totalCount_witness :
    (checkFeedDiff exampleUrl 0 0 exSpecList (some ("a")) false).newestId = some exA.id ∧
    (checkFeedDiff exampleUrl 0 0 exSpecList (some ("a")) false).totalCount
      = exSpecList.length :=
  checkFeedDiff_newestId_totalCount exampleUrl 0 0 exSpecList (some ("a")) false exA rfl

/-! ## Claim C3 — HTML body and the retry loop -/

/-- Claim C3, counterexample: with every attempt answering HTTP 200 and
an HTML body, the retry loop does NOT end after the first attempt: the
trace shows three HTTP GET attempts for the URL (the HTML-error-page
message matches none of the non-retryable patterns), though the call
does fail with the HTML-error-page error. -/
theorem htmlError_retried_cex :
    countHttpGets (fetchFeedFromUrl envHtml exampleUrl).2 = 3 ∧
    countHttpGets (fetchFeedFromUrl envHtml exampleUrl).2 ≠ 1 ∧
    (fetchFeedFromUrl envHtml exampleUrl).1.error = some htmlErrorMsg := by decide

/-- Claim C3 (amended): an HTML document where a feed was expected
raises the HTML-error-page error, but that error is classified
retryable, so the retry loop performs all 3 attempts (it does not end
after the failing attempt) and the fetch then fails with the
HTML-error-page error. -/
theorem htmlError_retryable_three_attempts (env : Env) (url : String)
    (resp : Nat → HttpResponse)
    (hcache : env.cache url 0 = none)
    (hprob : isProblematicUrl url = false)
    (hc : ∀ n, env.canExecute (extractDomain url) n = true)
    (hh : ∀ n, env.http url n = .response (resp n))
    (hok : ∀ n, 200 ≤ (resp n).status ∧ (resp n).status ≤ 299)
    (hhtml : ∀ n, looksLikeHtml (resp n).body = true) :
    (fetchFeedFromUrl env url).1 = { success := false, error := some htmlErrorMsg } ∧
    countHttpGets (fetchFeedFromUrl env url).2 = 3 := by
  have heq := fetchFeedFromUrl_html env url resp hcache hprob hc hh hok hhtml
  rw [heq]
  exact ⟨rfl, rfl⟩

/-- Witness for the amended Claim C3 in the concrete HTML environment. -/
theorem htmlError_retryable_witness :
    (fetchFeedFromUrl envHtml exampleUrl).1 = { success := false, error := some htmlErrorMsg } ∧
    countHttpGets (fetchFeedFromUrl envHtml exampleUrl).2 = 3 :=
  htmlError_retryable_three_attempts envHtml exampleUrl
    (fun _ => { status := 200, statusText := "OK", body := "<html><body>oops</body></html>" })
    rfl (by decide) (fun _ => rfl) (fun _ => rfl)
    (fun _ => (by decide : (200 : Nat) ≤ 200 ∧ (200 : Nat) ≤ 299))
    (fun _ => (by decide : looksLikeHtml ("<html><body>oops</body></html>") = true))

/-! ## Claim C4 — circuit-breaker failure records per call -/

/-- Claim C4, counterexample: a call whose three attempts all fail with
HTTP 500 records a circuit-breaker failure four times — once per
failed-HTTP-status attempt inside the loop (line 144) plus once after
retries are exhausted (line 275) — not exactly once per call. -/
theorem recordFailure_per_attempt_cex :
    countFailures (fetchFeedFromUrl env500 exampleUrl).2 = 4 ∧
    countFailures (fetchFeedFromUrl env500 exampleUrl).2 ≠ 1 ∧
    (fetchFeedFromUrl env500 exampleUrl).1.success = false := by decide

/-- Claim C4 (amended): a circuit-breaker failure is recorded once per
failed-HTTP-status attempt inside the retry loop, plus exactly one more
record at the end of the call (at the non-retryable break, or after
retries are exhausted); so a call whose attempts all fail with a
retryable HTTP status records `maxRetries + 1` failures. -/
theorem recordFailure_count_retryable_status (env : Env) (url : String)
    (resp : Nat → HttpResponse)
    (hcache : env.cache url 0 = none)
    (hprob : isProblematicUrl url = false)
    (hc : ∀ n, env.canExecute (extractDomain url) n = true)
    (hh : ∀ n, env.http url n = .response (resp n))
    (hs : ∀ n, ¬(200 ≤ (resp n).status ∧ (resp n).status ≤ 299))
    (h304 : ∀ n, (resp n).status ≠ 304)
    (hrl : ∀ n, isRateLimitError (httpStatusMsg (resp n).status (resp n).statusText) = false)
    (hnr : ∀ n, isNonRetryableError (httpStatusMsg (resp n).status (resp n).statusText)
      = false) :
    (fetchFeedFromUrl env url).1.success = false ∧
    countFailures (fetchFeedFromUrl env url).2 = maxRetries + 1 := by
  have heq := fetchFeedFromUrl_statusFail env url resp hcache hprob hc hh hs h304 hrl hnr
  rw [heq]
  exact ⟨rfl, rfl⟩

/-- Witness for the amended Claim C4 in the concrete HTTP-500
environment. -/
theorem recordFailure_count_witness :
    (fetchFeedFromUrl env500 exampleUrl).1.success = false ∧
    countFailures (fetchFeedFromUrl env500 exampleUrl).2 = maxRetries + 1 :=
  recordFailure_count_retryable_status env500 exampleUrl
    (fun _ => { status := 500, statusText := "Internal Server Error", body := "" })
    rfl (by decide) (fun _ => rfl) (fun _ => rfl)
    (fun _ => (by decide : ¬((200 : Nat) ≤ 500 ∧ (500 : Nat) ≤ 299)))
    (fun _ => (by decide : (500 : Nat) ≠ 304))
    (fun _ => (by decide : isRateLimitError (httpStatusMsg 500 ("Internal Server Error"))
      = false))
    (fun _ => (by decide : isNonRetryableError (httpStatusMsg 500 ("Internal Server Error"))
      = false))

/-! ## Claim C5 — checkpoint found at position k > 0 -/

/-- Claim C5: when the checkpoint identity is first found at position
`k > 0` of the ordered item sequence, the diff returns exactly the
items at positions `[0, k)` in feed order (the checkpoint identity is
nonempty, as every identity the assigner produces is). -/
theorem diff_checkpoint_found (url : String) (startup now : Int) (items : List RSSItem)
    (lastId : String) (k : Nat) (hne : lastId ≠ "")
    (hfind : items.findIdx? (fun item => item.id == lastId) = some k) (hk : 0 < k) :
    (getNewItemsFromFeed url startup now items (some lastId) false).1 = items.take k := by
  have ht : truthy (some lastId) = true := by simp [truthy, hne]
  have hne0 : ¬(k = 0 ∧ 0 < items.length) := fun hcon => by omega
  simp only [getNewItemsFromFeed, ht, Option.getD_some, hfind, hne0]
  simp [hne0]

/-- Witness for Claim C5 at the spec example `[A, B, C]` with
`lastSeenId = b`: the diff returns the one item before position 1. -/
theorem diff_checkpoint_found_witness :
    (getNewItemsFromFeed exampleUrl 0 0 exSpecList (some ("b")) false).1
      = exSpecList.take 1 :=
  diff_checkpoint_found exampleUrl 0 0 exSpecList ("b") 1 (by decide) (by decide) (by decide)

/-! ## Claim C6 — checkpoint-not-found fallback bound -/

/-- Claim C6, counterexample: for a Reddit feed URL, the
checkpoint-not-found fallback first returns ALL items published within
the last hour, so with six such items the diff returns six items — more
than the claimed bound of 5. -/
theorem diff_not_found_reddit_cex :
    ¬ ((getNewItemsFromFeed redditUrl 0 1000500 sixRecentItems (some ("zz")) false).1.length
      ≤ 5) := by decide

/-- Claim C6 (amended): for non-Reddit URLs the checkpoint-not-found
fallback returns the at most 5 most-recent items (a prefix of the feed
order); for URLs containing `reddit.com` the fallback instead prefers
all items of the trailing one-hour window, which is unbounded, and only
returns the at most 3 most-recent items when that window is empty. -/
theorem diff_not_found_bounded_nonreddit (url : String) (startup now : Int)
    (items : List RSSItem) (lastId : String)
    (hnr : includesStr url ("reddit.com") = false) (hne : lastId ≠ "")
    (hfind : items.findIdx? (fun item => item.id == lastId) = none) :
    (getNewItemsFromFeed url startup now items (some lastId) false).1
      = items.take (min 5 items.length) ∧
    (getNewItemsFromFeed url startup now items (some lastId) false).1.length ≤ 5 := by
  have ht : truthy (some lastId) = true := by simp [truthy, hne]
  have h1 : (getNewItemsFromFeed url startup now items (some lastId) false).1
      = items.take (min 5 items.length) := by
    simp only [getNewItemsFromFeed, ht, Option.getD_some, hfind, hnr, Bool.false_eq_true,
      if_false, filter_trivial]
    simp
  refine ⟨h1, ?_⟩
  rw [h1]
  simp [List.length_take]

/-- Witness for the amended Claim C6: six items on a non-Reddit URL
with an absent checkpoint yield the 5 most-recent items. -/
theorem diff_not_found_bounded_witness :
    (getNewItemsFromFeed exampleUrl 0 1000500 sixRecentItems (some ("zz")) false).1
      = sixRecentItems.take (min 5 sixRecentItems.length) ∧
    (getNewItemsFromFeed exampleUrl 0 1000500 sixRecentItems (some ("zz")) false).1.length
      ≤ 5 :=
  diff_not_found_bounded_nonreddit exampleUrl 0 1000500 sixRecentItems ("zz")
    (by decide) (by decide) (by decide)

/-! ## Claim C7 — first observation filtering -/

/-- Claim C7: with no checkpoint and catch-up not forced, the diff
returns exactly the items whose publish timestamp is at or after the
process-start reference time, and every item without a publish
timestamp is excluded. -/
theorem diff_first_observation_filter (url : String) (startup now : Int)
    (items : List RSSItem) :
    (getNewItemsFromFeed url startup now items none false).1
      = items.filter (fun item => match item.pubDate with
          | none => false
          | some d => decide (startup ≤ d)) ∧
    ∀ item ∈ (getNewItemsFromFeed url startup now items none false).1,
      ∃ d, item.pubDate = some d ∧ startup ≤ d := by
  have h1 : (getNewItemsFromFeed url startup now items none false).1
      = items.filter (fun item => match item.pubDate with
          | none => false
          | some d => decide (startup ≤ d)) := rfl
  refine ⟨h1, fun item hmem => ?_⟩
  rw [h1] at hmem
  have hp := List.of_mem_filter hmem
  cases hd : item.pubDate with
  | none => rw [hd] at hp; simp at hp
  | some d => rw [hd] at hp; exact ⟨d, rfl, of_decide_eq_true hp⟩

/-! ## Claim C8 — backoff formula and monotonicity -/

/-- Claim C8: for generic (non-rate-limit) retryable errors the retry
loop sleeps `backoffDelay n` before attempt `n + 1`, the delays of a
three-attempt call being exactly `[backoffDelay 1, backoffDelay 2]`;
`backoffDelay n = min (1000 * 2 ^ (n - 1)) 30000` for every attempt
number, and the delay sequence is non-decreasing on `n ∈ [1, 2]`. -/
theorem backoff_formula_monotone (env : Env) (url : String)
    (resp : Nat → HttpResponse)
    (hcache : env.cache url 0 = none)
    (hprob : isProblematicUrl url = false)
    (hc : ∀ n, env.canExecute (extractDomain url) n = true)
    (hh : ∀ n, env.http url n = .response (resp n))
    (hs : ∀ n, ¬(200 ≤ (resp n).status ∧ (resp n).status ≤ 299))
    (h304 : ∀ n, (resp n).status ≠ 304)
    (hrl : ∀ n, isRateLimitError (httpStatusMsg (resp n).status (resp n).statusText) = false)
    (hnr : ∀ n, isNonRetryableError (httpStatusMsg (resp n).status (resp n).statusText)
      = false) :
    sleepsOf (fetchFeedFromUrl env url).2 = [backoffDelay 1, backoffDelay 2] ∧
    (∀ n, backoffDelay n = min (1000 * 2 ^ (n - 1)) 30000) ∧
    backoffDelay 1 ≤ backoffDelay 2 := by
  have heq := fetchFeedFromUrl_statusFail env url resp hcache hprob hc hh hs h304 hrl hnr
  rw [heq]
  exact ⟨rfl, fun n => rfl, by decide⟩

/-- Witness for Claim C8 in the concrete HTTP-500 environment. -/
theorem backoff_formula_witness :
    sleepsOf (fetchFeedFromUrl env500 exampleUrl).2 = [backoffDelay 1, backoffDelay 2] ∧
    (∀ n, backoffDelay n = min (1000 * 2 ^ (n - 1)) 30000) ∧
    backoffDelay 1 ≤ backoffDelay 2 :=
  backoff_formula_monotone env500 exampleUrl
    (fun _ => { status := 500, statusText := "Internal Server Error", body := "" })
    rfl (by decide) (fun _ => rfl) (fun _ => rfl)
    (fun _ => (by decide : ¬((200 : Nat) ≤ 500 ∧ (500 : Nat) ≤ 299)))
    (fun _ => (by decide : (500 : Nat) ≠ 304))
    (fun _ => (by decide : isRateLimitError (httpStatusMsg 500 ("Internal Server Error"))
      = false))
    (fun _ => (by decide : isNonRetryableError (httpStatusMsg 500 ("Internal Server Error"))
      = false))

/-! ## Claim C9 — structured failure, never raises -/

/-- Claim C9: `fetchFeed` is total (every thrown exception is caught
inside the loop, so the embedding returns a `ParseResult` for every
input), and when the original URL and every alternate candidate URL
fail, it returns the structured failure of the final original-URL
retry, whose error message is always present. -/
theorem fetchFeed_structured_failure (env : Env) (url : String)
    (hall : ∀ u ∈ url :: getAlternativeUrls url,
      (fetchFeedFromUrl env u).1.success = false) :
    (fetchFeed env url).1 = (fetchFeedFromUrl env url).1 ∧
    (fetchFeed env url).1.success = false ∧
    (fetchFeed env url).1.error = (fetchFeedFromUrl env url).1.error ∧
    ((fetchFeed env url).1.error).isSome = true := by
  have hu : (fetchFeedFromUrl env url).1.success = false :=
    hall url (List.mem_cons_self url (getAlternativeUrls url))
  have hloop : (fetchFeed env url).1 = (fetchFeedFromUrl env url).1 := by
    unfold fetchFeed
    exact fetchFeedLoop_allFail env url (url :: getAlternativeUrls url) [] hall
  refine ⟨hloop, ?_, ?_, ?_⟩
  · rw [hloop]; exact hu
  · rw [hloop]
  · rw [hloop]; exact fetchFeedFromUrl_error_isSome env url hu

/-- Witness for Claim C9 in the environment where every attempt throws
a transport error: original and www-alternate URLs both fail. -/
theorem fetchFeed_structured_failure_witness :
    (fetchFeed envFail exampleUrl).1 = (fetchFeedFromUrl envFail exampleUrl).1 ∧
    (fetchFeed envFail exampleUrl).1.success = false ∧
    (fetchFeed envFail exampleUrl).1.error = (fetchFeedFromUrl envFail exampleUrl).1.error ∧
    ((fetchFeed envFail exampleUrl).1.error).isSome = true :=
  fetchFeed_structured_failure envFail exampleUrl (by decide)

/-! ## Claim C10 — 304 without a cache entry -/

/-- Claim C10: when an attempt receives HTTP 304 while no cache entry
exists for the URL at that moment, the attempt does not succeed with a
cached feed; the 304 falls through to the unsuccessful-status path,
records one circuit-breaker failure for the domain, and raises the
HTTP-status error carrying code 304 (which the retry loop then
classifies like any caught error). -/
theorem status304_without_cache_fails (env : Env) (url domain : String) (n : Nat)
    (r : HttpResponse)
    (hc : env.canExecute domain n = true)
    (hh : env.http url n = .response r)
    (h304 : r.status = 304)
    (hnc : env.cache url n = none) :
    tryAttempt env url domain n =
      (.error (httpStatusMsg 304 r.statusText),
       [.cbCheck domain, .rateWait url, .httpGet url n, .cbFailure domain]) := by
  simp only [tryAttempt, attemptTail, hc, if_true, hh, h304, hnc]
  norm_num

/-- Witness for Claim C10 in the concrete 304-without-cache
environment. -/
theorem status304_without_cache_witness :
    tryAttempt env304 exampleUrl ("example.com") 1 =
      (.error (httpStatusMsg 304 ("Not Modified")),
       [.cbCheck ("example.com"), .rateWait exampleUrl, .httpGet exampleUrl 1,
        .cbFailure ("example.com")]) :=
  status304_without_cache_fails env304 exampleUrl ("example.com") 1
    { status := 304, statusText := "Not Modified", body := "" } rfl rfl rfl rfl

end RssSkull
